import Mathlib

/-!
Shallow embedding of the task-orchestration and coordination core of the
omega-agi-system repository (TypeScript), together with theorems settling
the behavioural claims about it.

Sources embedded:
- `src/lib/system-bootstrap.ts` (enhancement pipeline, coordination record,
  heartbeat, conflict check)
- `src/lib/agentic-api.ts` (task submission facade, statistics, swarm health)
- `src/lib/omega-orchestrator.ts` (evolution cycle)

Machine numbers are modelled with `Nat`/`Int` for timestamps and counters and
`Rat` for JavaScript arithmetic on averages and percentages.  Fallible steps
return `Except`.  JavaScript string `includes` is substring containment on the
character list.
-/

/-- True when `pat` occurs as a contiguous sublist of the second argument. -/
def listHasInfix (pat : List Char) : List Char → Bool
  | [] => pat.isEmpty
  | c :: rest => pat.isPrefixOf (c :: rest) || listHasInfix pat rest

/-- JavaScript `haystack.includes(needle)`: substring containment. -/
def jsIncludes (s pat : String) : Bool :=
  listHasInfix pat.data s.data

/-- Replace the first occurrence of `pat` by `rep` in a character list,
mirroring JavaScript `String.prototype.replace` with a string pattern
(which replaces only the first occurrence). -/
def replaceFirstList (pat rep : List Char) : List Char → List Char
  | [] => []
  | c :: rest =>
    if pat.isPrefixOf (c :: rest) then rep ++ (c :: rest).drop pat.length
    else c :: replaceFirstList pat rep rest

/-- JavaScript `s.replace(pat, rep)` for a string pattern: first occurrence only. -/
def jsReplace (s pat rep : String) : String :=
  ⟨replaceFirstList pat.data rep.data s.data⟩

/-- Result shape of `validateEnhancements` in `system-bootstrap.ts`:
`{ valid: boolean; errors: string[] }`. -/
structure ValidationResult where
  valid : Bool
  errors : List String
deriving DecidableEq, Repr

/-- Embedding of `SystemBootstrap.validateEnhancements` (system-bootstrap.ts
lines 301-323).  The error list is accumulated in source order:
1. `!content.includes('export ') && !content.includes('import ')` pushes
   "Invalid TypeScript code";
2. `content.includes('  ') && content.includes('export default')` pushes
   "Indentation errors detected";
3. `content.includes('undefined')` pushes "Undefined references detected".
`valid` is `errors.length === 0`. -/
def validateEnhancements (content : String) : ValidationResult :=
  let errors : List String := []
  let errors :=
    if !(jsIncludes content "export ") && !(jsIncludes content "import ") then
      errors ++ ["Invalid TypeScript code"]
    else errors
  let errors :=
    if jsIncludes content "  " && jsIncludes content "export default" then
      errors ++ ["Indentation errors detected"]
    else errors
  let errors :=
    if jsIncludes content "undefined" then
      errors ++ ["Undefined references detected"]
    else errors
  { valid := errors.length == 0, errors := errors }

example : (validateEnhancements "import x").valid = true := by decide
example : (validateEnhancements "foo").valid = false := by decide
example : (validateEnhancements "export const a = 1").valid = true := by decide

/-- Claim C1 counterexample: the content "import x" contains an import marker
but no export marker, yet validation accepts it — the source rejects for the
missing-marker reason only when BOTH markers are absent, so content missing
only an export marker is not rejected. -/
theorem C1_counterexample :
    jsIncludes "import x" "export " = false ∧
    (validateEnhancements "import x").valid = true := by
  decide

/-- Claim C1 (amended): validation rejects content for the missing-marker
reason only when the content lacks BOTH the import marker and the export
marker; in that case it is rejected. -/
theorem C1_amended (content : String)
    (hexp : jsIncludes content "export " = false)
    (himp : jsIncludes content "import " = false) :
    (validateEnhancements content).valid = false := by
  unfold validateEnhancements
  simp only [hexp, himp]
  by_cases h2 : jsIncludes content "  " && jsIncludes content "export default" <;>
    by_cases h3 : jsIncludes content "undefined" <;>
      simp [h2, h3]

/-- Witness for C1_amended at the concrete content "foo". -/
theorem C1_amended_witness :
    (validateEnhancements "foo").valid = false :=
  C1_amended "foo" (by decide) (by decide)

/-- Status of an enhancer process in the coordination record
(`'active' | 'idle' | 'error'`). -/
inductive ProcStatus where
  | active
  | idle
  | error
deriving DecidableEq, Repr

/-- System-level status field of the coordination record. -/
inductive SystemStatus where
  | initializing
  | active
  | evolving
  | idle
  | error
deriving DecidableEq, Repr

/-- Coordination mode (`'dual-llm' | 'single-llm'`). -/
inductive CoordMode where
  | dualLLM
  | singleLLM
deriving DecidableEq, Repr

/-- Evolution sub-record status (`'idle' | 'running' | 'paused'`). -/
inductive EvoStatus where
  | idle
  | running
  | paused
deriving DecidableEq, Repr

/-- One enhancer's entry in `CoordinationData.enhancers`. -/
structure EnhancerState where
  activeFiles : List String
  lastHeartbeat : Nat
  status : ProcStatus
deriving DecidableEq, Repr

/-- The `evolution` sub-record of `CoordinationData`. -/
structure EvolutionState where
  cycle : Nat
  status : EvoStatus
  startTime : Option Nat
  lastUpdate : Option Nat
deriving DecidableEq, Repr

/-- Embedding of the `CoordinationData` interface of `system-bootstrap.ts`.
The enhancer map keys are fixed: `omeagaSystem` is the `'omeaga-system'`
entry (the source's own spelling) and `otherEnhancer` is `'other-enhancer'`. -/
structure CoordinationData where
  version : String
  lastUpdate : Nat
  systemStatus : SystemStatus
  omeagaSystem : EnhancerState
  otherEnhancer : EnhancerState
  mode : CoordMode
  evolution : EvolutionState
deriving DecidableEq, Repr

/-- Runtime errors of the embedded JavaScript: referencing an identifier that
is not in scope throws a `ReferenceError` naming the identifier. -/
inductive JsError where
  | referenceError (name : String)
deriving DecidableEq, Repr

/-- The in-memory mutation performed by `SystemBootstrap.updateHeartbeat`
(system-bootstrap.ts lines 237-238): set the `'omeaga-system'` entry's
`lastHeartbeat` and the record-level `lastUpdate` to the current time. -/
def heartbeatMutate (coordination : CoordinationData) (now : Nat) : CoordinationData :=
  { coordination with
      omeagaSystem := { coordination.omeagaSystem with lastHeartbeat := now },
      lastUpdate := now }

/-- Embedding of `SystemBootstrap.updateHeartbeat` (system-bootstrap.ts lines
234-241).  It reads the persisted record, mutates the local copy, and then
calls `writeCoordinationFile(coordinationData)` — but `coordinationData` is
not an identifier in scope there (the local is named `coordination`), so the
call throws a `ReferenceError` and the mutated copy is never persisted. -/
def updateHeartbeat (store : CoordinationData) (now : Nat) :
    Except JsError CoordinationData :=
  let coordination := heartbeatMutate store now
  let _ := coordination
  Except.error (JsError.referenceError "coordinationData")

/-- Embedding of `SystemBootstrap.checkForConflicts` (system-bootstrap.ts
lines 161-185), reduced to whether the conflict report is emitted: the
`'other-enhancer'` entry has status active, its heartbeat age is under
300000 ms, and its `activeFiles` list is non-empty. -/
def checkForConflicts (coordination : CoordinationData) (now : Nat) : Bool :=
  let otherEnhancer := coordination.otherEnhancer
  let heartbeatAge : Int := (now : Int) - (otherEnhancer.lastHeartbeat : Int)
  decide (otherEnhancer.status = ProcStatus.active) &&
    decide (heartbeatAge < 300000) &&
    decide (0 < otherEnhancer.activeFiles.length)

/-- Claim C4: the heartbeat step mutates exactly `self.lastHeartbeat` and the
record-level `lastUpdate` in memory (all other fields preserved), but the
persist call raises a `ReferenceError` on the out-of-scope identifier
`coordinationData`, so the updated record is never written back — the source
contradicts its evident intent of persisting the mutated `coordination`. -/
theorem C4_heartbeat_persisting_fails (store : CoordinationData) (now : Nat) :
    updateHeartbeat store now = Except.error (JsError.referenceError "coordinationData") ∧
    (heartbeatMutate store now).omeagaSystem.lastHeartbeat = now ∧
    (heartbeatMutate store now).lastUpdate = now ∧
    (heartbeatMutate store now).version = store.version ∧
    (heartbeatMutate store now).systemStatus = store.systemStatus ∧
    (heartbeatMutate store now).mode = store.mode ∧
    (heartbeatMutate store now).omeagaSystem.activeFiles = store.omeagaSystem.activeFiles ∧
    (heartbeatMutate store now).omeagaSystem.status = store.omeagaSystem.status ∧
    (heartbeatMutate store now).otherEnhancer = store.otherEnhancer ∧
    (heartbeatMutate store now).evolution = store.evolution := by
  refine ⟨rfl, rfl, rfl, rfl, rfl, rfl, rfl, rfl, rfl, rfl⟩

/-- Claim C8: with the peer active and holding at least one active file, the
conflict check fires 250000 ms after the peer heartbeat (age below the
300000 ms staleness cutoff) and does not fire 301000 ms after it. -/
theorem C8_conflict_staleness_cutoff (coordination : CoordinationData) (T : Nat)
    (hstatus : coordination.otherEnhancer.status = ProcStatus.active)
    (hhb : coordination.otherEnhancer.lastHeartbeat = T)
    (hfiles : coordination.otherEnhancer.activeFiles ≠ []) :
    checkForConflicts coordination (T + 250000) = true ∧
    checkForConflicts coordination (T + 301000) = false := by
  have hlen : 0 < coordination.otherEnhancer.activeFiles.length :=
    List.length_pos.mpr hfiles
  have h1 : ((T + 250000 : Nat) : Int) - (T : Int) < 300000 := by push_cast; omega
  have h2 : ¬ (((T + 301000 : Nat) : Int) - (T : Int) < 300000) := by push_cast; omega
  constructor
  · simp [checkForConflicts, hstatus, hhb, h1, hlen]
  · simp [checkForConflicts, hhb, h2]

/-- Witness for C8 at a concrete coordination record with heartbeat time 0. -/
theorem C8_conflict_staleness_cutoff_witness :
    checkForConflicts
      { version := "1.0", lastUpdate := 0, systemStatus := SystemStatus.active,
        omeagaSystem := { activeFiles := [], lastHeartbeat := 0, status := ProcStatus.active },
        otherEnhancer := { activeFiles := ["a.ts"], lastHeartbeat := 0, status := ProcStatus.active },
        mode := CoordMode.dualLLM,
        evolution := { cycle := 0, status := EvoStatus.idle, startTime := none, lastUpdate := none } }
      (0 + 250000) = true ∧
    checkForConflicts
      { version := "1.0", lastUpdate := 0, systemStatus := SystemStatus.active,
        omeagaSystem := { activeFiles := [], lastHeartbeat := 0, status := ProcStatus.active },
        otherEnhancer := { activeFiles := ["a.ts"], lastHeartbeat := 0, status := ProcStatus.active },
        mode := CoordMode.dualLLM,
        evolution := { cycle := 0, status := EvoStatus.idle, startTime := none, lastUpdate := none } }
      (0 + 301000) = false :=
  C8_conflict_staleness_cutoff _ 0 rfl rfl (by decide)

/-- The file system reached through the read/write HTTP primitives of
`system-bootstrap.ts`; a missing file reads as the empty string, exactly as
`readFile` returns `data.content || ''`. -/
def FileStore : Type := String → String

/-- One successful `writeFile` call: overwrite the content at `path`. -/
def writeFs (fs : FileStore) (path content : String) : FileStore :=
  fun q => if q = path then content else fs q

/-- An observable file-write event, used to record the order of the writes
performed by `applyEnhancements`. -/
structure FsWrite where
  path : String
  content : String
deriving DecidableEq, Repr

/-- Embedding of `SystemBootstrap.createPatch` (system-bootstrap.ts lines
349-357): the derived patch descriptor. -/
structure PatchDescriptor where
  originalLength : Nat
  modifiedLength : Nat
  linesAdded : Int
  timestamp : Nat
deriving DecidableEq, Repr

/-- Embedding of `SystemBootstrap.createPatch`: lengths, newline-split line
delta, and timestamp. -/
def createPatch (original modified : String) (now : Nat) : PatchDescriptor :=
  { originalLength := original.length
    modifiedLength := modified.length
    linesAdded := ((modified.splitOn "\n").length : Int) - ((original.splitOn "\n").length : Int)
    timestamp := now }

/-- Embedding of `SystemBootstrap.applyEnhancements` (system-bootstrap.ts
lines 328-344), in source order: read the current target content, compute the
(unused) patch descriptor, write the NEW content to the target path, and only
then write the previous content to `<target>.backup`.  The second component
records the two write events in the order the source performs them. -/
def applyEnhancements (fs : FileStore) (originalPath enhancedContent : String)
    (now : Nat) : FileStore × List FsWrite :=
  let currentContent := fs originalPath
  let _patch := createPatch currentContent enhancedContent now
  let fs1 := writeFs fs originalPath enhancedContent
  let fs2 := writeFs fs1 (originalPath ++ ".backup") currentContent
  (fs2, [⟨originalPath, enhancedContent⟩, ⟨originalPath ++ ".backup", currentContent⟩])

/-- A path never equals itself extended with the ".backup" suffix. -/
theorem ne_append_backup (p : String) : p ≠ p ++ ".backup" := by
  intro h
  have hl := congrArg String.length h
  rw [String.length_append] at hl
  have h7 : (".backup" : String).length = 7 := rfl
  rw [h7] at hl
  omega

/-- Concrete file store for exercising `applyEnhancements`: every file holds
the content "old". -/
def applyDemoFs : FileStore := fun _ => "old"

/-- Claim C2 counterexample: running `applyEnhancements` on the target
"a.ts" with new content "new" produces the write trace in which the write to
the target occurs at position 0 and the write to "a.ts.backup" occurs at
position 1 — the target is overwritten strictly BEFORE the backup of its
prior content is written, so the claimed backup-first ordering fails, and the
state after the first write has the target updated with no backup yet. -/
theorem C2_counterexample :
    ∃ i j,
      ((applyEnhancements applyDemoFs "a.ts" "new" 0).2.findIdx?
        (fun w => w.path == "a.ts")) = some i ∧
      ((applyEnhancements applyDemoFs "a.ts" "new" 0).2.findIdx?
        (fun w => w.path == "a.ts.backup")) = some j ∧
      i < j := by
  refine ⟨0, 1, by decide, by decide, by decide⟩

/-- Claim C2 (amended): `applyEnhancements` first overwrites the target with
the new content and then writes the pre-patch content (read before the
overwrite) to `<target>.backup`; between the two writes the target is already
updated while the backup is not.  The final store still has the backup equal
to the pre-patch target content and the target equal to the new content. -/
theorem C2_amended (fs : FileStore) (p e : String) (now : Nat) :
    (applyEnhancements fs p e now).2 = [⟨p, e⟩, ⟨p ++ ".backup", fs p⟩] ∧
    (applyEnhancements fs p e now).1 p = e ∧
    (applyEnhancements fs p e now).1 (p ++ ".backup") = fs p := by
  refine ⟨rfl, ?_, ?_⟩
  · simp [applyEnhancements, writeFs, ne_append_backup p]
  · simp [applyEnhancements, writeFs]

/-- The in-memory mutation intended by `removeFileFromCoordination`
(system-bootstrap.ts lines 367-368): splice the first occurrence of the path
out of the `'other-enhancer'` activeFiles list and refresh `lastUpdate`. -/
def removeMutate (coordination : CoordinationData) (filePath : String) (now : Nat) :
    CoordinationData :=
  { coordination with
      otherEnhancer :=
        { coordination.otherEnhancer with
            activeFiles := coordination.otherEnhancer.activeFiles.erase filePath }
      lastUpdate := now }

/-- Embedding of `SystemBootstrap.removeFileFromCoordination`
(system-bootstrap.ts lines 362-372).  When `indexOf(filePath) !== -1` the
local copy is spliced, but the subsequent `writeCoordinationFile` is called
with the out-of-scope identifier `coordinationData`, so a `ReferenceError` is
thrown before anything is persisted; when the path is absent nothing is
written and the store is returned unchanged. -/
def removeFileFromCoordination (store : CoordinationData) (filePath : String)
    (now : Nat) : Except JsError CoordinationData :=
  let coordination := store
  if coordination.otherEnhancer.activeFiles.contains filePath then
    let _spliced := removeMutate coordination filePath now
    Except.error (JsError.referenceError "coordinationData")
  else
    Except.ok store

/-- Embedding of `SystemBootstrap.processReadyFile` (system-bootstrap.ts
lines 269-296): read the companion `.enhancer.ts` content, validate it, and
if valid apply the enhancement to the original path (ready suffix stripped)
and attempt to remove the path from coordination.  The whole body runs under
a try/catch that swallows errors, so when `removeFileFromCoordination`
throws, the file writes already performed remain and the coordination store
is left unchanged. -/
def processReadyFile (fs : FileStore) (coordStore : CoordinationData)
    (filePath : String) (now : Nat) : FileStore × CoordinationData :=
  let enhancedContent := fs (jsReplace filePath ".ready" ".enhancer.ts")
  let validation := validateEnhancements enhancedContent
  if validation.valid then
    let originalPath := jsReplace filePath ".ready" ""
    let applied := applyEnhancements fs originalPath enhancedContent now
    match removeFileFromCoordination coordStore filePath now with
    | Except.ok c => (applied.1, c)
    | Except.error _ => (applied.1, coordStore)
  else
    (fs, coordStore)

/-- Concrete file store for the C9 scenario: the companion enhancer file
holds valid content and the target holds its previous content. -/
def c9Fs : FileStore := fun p =>
  if p = "a.ts.enhancer.ts" then "export const a = 1"
  else if p = "a.ts" then "old content"
  else ""

/-- Concrete coordination record for the C9 scenario: the peer lists the
ready file among its active files. -/
def c9Coord : CoordinationData :=
  { version := "1.0", lastUpdate := 0, systemStatus := SystemStatus.active,
    omeagaSystem := { activeFiles := [], lastHeartbeat := 0, status := ProcStatus.active },
    otherEnhancer := { activeFiles := ["a.ts.ready"], lastHeartbeat := 0, status := ProcStatus.active },
    mode := CoordMode.dualLLM,
    evolution := { cycle := 0, status := EvoStatus.idle, startTime := none, lastUpdate := none } }

/-- Claim C9 at its failing input: the content passes validation, the backup
and target files end up byte-identical to the pre-patch and new contents
respectively, but the coordination record is unchanged — the ready path is
still in the peer's activeFiles, because `removeFileFromCoordination` throws
a `ReferenceError` on the out-of-scope identifier `coordinationData` before
persisting, and `processReadyFile` swallows the error. -/
theorem C9_removal_not_persisted :
    (validateEnhancements (c9Fs "a.ts.enhancer.ts")).valid = true ∧
    (processReadyFile c9Fs c9Coord "a.ts.ready" 5).1 "a.ts.backup" = "old content" ∧
    (processReadyFile c9Fs c9Coord "a.ts.ready" 5).1 "a.ts" = "export const a = 1" ∧
    (processReadyFile c9Fs c9Coord "a.ts.ready" 5).2 = c9Coord ∧
    (processReadyFile c9Fs c9Coord "a.ts.ready" 5).2.otherEnhancer.activeFiles
      = ["a.ts.ready"] := by
  decide

/-- State of the `OmegaOrchestrator` singleton relevant to the evolution
loop (omega-orchestrator.ts lines 96-100). -/
structure OrchestratorState where
  isInitialized : Bool
  consciousnessLevel : Rat
  learningCycles : Nat
  evolutionRate : Rat
deriving DecidableEq, Repr

/-- The synchronous entry step of `executeEvolutionCycle`
(omega-orchestrator.ts line 325): `this.learningCycles++` runs
unconditionally.  The class has no re-entrancy flag, so a 60-second timer
tick that fires while a prior cycle is still awaiting its phases performs
this increment again. -/
def evolutionTickEntry (s : OrchestratorState) : OrchestratorState :=
  { s with learningCycles := s.learningCycles + 1 }

/-- The orchestrator's field initializers (omega-orchestrator.ts lines
97-100). -/
def initialOrchestratorState : OrchestratorState :=
  { isInitialized := false, consciousnessLevel := 0, learningCycles := 0,
    evolutionRate := 0 }

/-- Claim C3 counterexample: from the initial orchestrator state, two
evolution-cycle tick entries (the second firing before the first cycle
completes) leave the cycle counter at 2 — more than the single increment the
claim allows, so the claimed re-entrancy guard does not exist in the code. -/
theorem C3_counterexample :
    ¬ ((evolutionTickEntry (evolutionTickEntry initialOrchestratorState)).learningCycles
        ≤ initialOrchestratorState.learningCycles + 1) := by
  decide

/-- Claim C3 (amended): each evolution-cycle timer tick unconditionally
begins a cycle and increments the cycle counter; two ticks with the first
cycle still incomplete increment it exactly twice, as there is no
re-entrancy guard in the source. -/
theorem C3_amended (s : OrchestratorState) :
    (evolutionTickEntry (evolutionTickEntry s)).learningCycles
      = s.learningCycles + 2 :=
  rfl

/-- Agent status in the registry (`'idle' | 'busy' | 'offline'`). -/
inductive AgentStatus where
  | idle
  | busy
  | offline
deriving DecidableEq, Repr

/-- A registered agent, as consumed by `agentic-api.ts` from the registry. -/
structure Agent where
  id : String
  name : String
  domain : String
  capabilities : List String
  status : AgentStatus
  priority : Int
deriving DecidableEq, Repr

/-- Embedding of the `TaskSubmission` interface of `agentic-api.ts` (lines
24-34); the optional payloads are modelled as optional strings. -/
structure TaskSubmission where
  taskId : String
  taskDescription : String
  taskType : String
  domain : String
  priority : Int
  inputs : Option String
  context : Option String
  timeoutMs : Option Nat
  maxRetries : Option Nat
deriving DecidableEq, Repr

/-- The task object built inside `submitTask` (agentic-api.ts lines 103-111);
`inputs || {}` and `context || {}` are modelled as defaulting to the empty
payload. -/
structure AgentTask where
  id : String
  description : String
  type : String
  domain : String
  priority : Int
  inputs : String
  context : String
deriving DecidableEq, Repr

/-- The options object passed to `orchestrator.executeTask` (agentic-api.ts
lines 113-116). -/
structure ExecOptions where
  timeout : Option Nat
  maxRetries : Nat
deriving DecidableEq, Repr

/-- The result record produced by the task scheduler, with the fields
`submitTask` and `getAgentStatistics` read off it in `agentic-api.ts`. -/
structure TaskResult where
  success : Bool
  agentId : Option String
  startTime : Option Nat
  endTime : Option Nat
  duration : Option Rat
  output : Option String
  error : Option String
deriving DecidableEq, Repr

/-- JavaScript `x || d` for an optional natural number: the default applies
when the value is absent or 0 (both falsy). -/
def jsOrNat : Option Nat → Nat → Nat
  | none, d => d
  | some n, d => if n = 0 then d else n

/-- The options record built by `submitTask` (agentic-api.ts line 113-116):
`timeout: submission.timeoutMs, maxRetries: submission.maxRetries || 3`. -/
def submittedOptions (submission : TaskSubmission) : ExecOptions :=
  { timeout := submission.timeoutMs
    maxRetries := jsOrNat submission.maxRetries 3 }

/-- Candidate agents for a task: exact domain match with idle status
(spec section 4.2 step 1). -/
def schedulerCandidates (agents : List Agent) (domain : String) : List Agent :=
  agents.filter (fun a => a.domain == domain && a.status == AgentStatus.idle)

/-- Modelled from the spec: `src/lib/agents/orchestrator.ts` (the task
scheduler behind `orchestrator.executeTask`) is not under src — only its
callers are.  Spec section 4.2 steps 1-3: select candidates by exact domain
match and idle status; if no candidate exists, the call fails immediately
with `NoAgentAvailable` and does not block or queue.  Dispatch to the opaque
per-domain executor when a candidate exists is abstracted as the `exec`
parameter. -/
def executeTask (agents : List Agent) (exec : AgentTask → ExecOptions → TaskResult)
    (task : AgentTask) (options : ExecOptions) : TaskResult :=
  if schedulerCandidates agents task.domain = [] then
    { success := false, agentId := none, startTime := none, endTime := none,
      duration := none, output := none, error := some "NoAgentAvailable" }
  else
    exec task options

/-- The lifecycle status carried by the facade's `TaskStatus`
(`'pending' | 'in_progress' | 'completed' | 'failed' | 'timeout'`). -/
inductive TaskState where
  | pending
  | inProgress
  | completed
  | failed
  | timeout
deriving DecidableEq, Repr

/-- Embedding of the `TaskStatus` interface of `agentic-api.ts` (lines
39-49). -/
structure TaskStatus where
  taskId : String
  status : TaskState
  assignedAgent : Option String
  startTime : Option Nat
  endTime : Option Nat
  duration : Option Rat
  progress : Rat
  result : Option String
  error : Option String
deriving DecidableEq, Repr

/-- Embedding of `AgenticAPI.submitTask` (agentic-api.ts lines 100-133):
build the task object, call the scheduler with
`maxRetries: submission.maxRetries || 3`, and map the result onto a
`TaskStatus` with status `completed` on success and `failed` otherwise. -/
def submitTask (agents : List Agent) (exec : AgentTask → ExecOptions → TaskResult)
    (submission : TaskSubmission) : TaskStatus :=
  let task : AgentTask :=
    { id := submission.taskId
      description := submission.taskDescription
      type := submission.taskType
      domain := submission.domain
      priority := submission.priority
      inputs := submission.inputs.getD ""
      context := submission.context.getD "" }
  let result := executeTask agents exec task (submittedOptions submission)
  { taskId := submission.taskId
    status := if result.success then TaskState.completed else TaskState.failed
    assignedAgent := result.agentId
    startTime := result.startTime
    endTime := result.endTime
    duration := result.duration
    progress := if result.success then 1 else 0
    result := result.output
    error := result.error }

/-- Claim C5: submitting a task to a domain with zero idle agents yields a
record with terminal status failed and an error string containing
NoAgentAvailable; the call returns at once (the embedding is a total
function; nothing is queued). -/
theorem C5_no_agent_available (agents : List Agent)
    (exec : AgentTask → ExecOptions → TaskResult) (submission : TaskSubmission)
    (h : schedulerCandidates agents submission.domain = []) :
    (submitTask agents exec submission).status = TaskState.failed ∧
    ∃ e, (submitTask agents exec submission).error = some e ∧
      jsIncludes e "NoAgentAvailable" = true := by
  constructor
  · simp [submitTask, executeTask, h]
  · refine ⟨"NoAgentAvailable", ?_, by decide⟩
    simp [submitTask, executeTask, h]

/-- A trivial executor standing in for the opaque per-domain executor. -/
def noopExec : AgentTask → ExecOptions → TaskResult := fun _ _ =>
  { success := false, agentId := none, startTime := none, endTime := none,
    duration := none, output := none, error := none }

/-- The end-to-end example submission of spec section 8, aimed at a domain
with no registered agents. -/
def c5Submission : TaskSubmission :=
  { taskId := "t1", taskDescription := "demo", taskType := "test",
    domain := "memory", priority := 5, inputs := none, context := none,
    timeoutMs := some 2000, maxRetries := some 1 }

/-- Witness for C5 at the empty registry and the concrete submission. -/
theorem C5_no_agent_available_witness :
    (submitTask [] noopExec c5Submission).status = TaskState.failed ∧
    ∃ e, (submitTask [] noopExec c5Submission).error = some e ∧
      jsIncludes e "NoAgentAvailable" = true :=
  C5_no_agent_available [] noopExec c5Submission rfl

/-- Claim C10: `submitTask` applies the retry default through JavaScript
falsiness — an explicit `maxRetries = 0` reaches the scheduler as 3, so a
zero retry budget cannot be expressed through the facade, while any positive
value passes through unchanged. -/
theorem C10_max_retries_falsy_default (submission : TaskSubmission) :
    (submission.maxRetries = some 0 →
      (submittedOptions submission).maxRetries = 3) ∧
    (∀ n : Nat, submission.maxRetries = some n → 0 < n →
      (submittedOptions submission).maxRetries = n) := by
  constructor
  · intro h
    simp [submittedOptions, jsOrNat, h]
  · intro n h hn
    simp [submittedOptions, jsOrNat, h, Nat.pos_iff_ne_zero.mp hn]

/-- Submission with an explicit zero retry budget. -/
def c10SubmissionZero : TaskSubmission :=
  { c5Submission with taskId := "t2", maxRetries := some 0 }

/-- Submission with a positive retry budget. -/
def c10SubmissionTwo : TaskSubmission :=
  { c5Submission with taskId := "t3", maxRetries := some 2 }

/-- Witness for C10 at submissions with maxRetries 0 and 2. -/
theorem C10_max_retries_falsy_default_witness :
    (submittedOptions c10SubmissionZero).maxRetries = 3 ∧
    (submittedOptions c10SubmissionTwo).maxRetries = 2 :=
  ⟨(C10_max_retries_falsy_default c10SubmissionZero).1 rfl,
   (C10_max_retries_falsy_default c10SubmissionTwo).2 2 rfl (by decide)⟩

/-- Result shape of `getAgentStatistics` (agentic-api.ts lines 182-190);
`byDomain` is the insertion-ordered count map built over the agents. -/
structure AgentStatistics where
  totalAgents : Nat
  availableAgents : Nat
  busyAgents : Nat
  offlineAgents : Nat
  byDomain : List (String × Nat)
  tasksCompleted : Nat
  averageTaskDuration : Rat
deriving DecidableEq, Repr

/-- One step of the `byDomain` accumulation
(`byDomain[domain] = (byDomain[domain] || 0) + 1`): bump the existing entry
or append a fresh one, preserving insertion order as a JavaScript object
does. -/
def bumpDomain : List (String × Nat) → String → List (String × Nat)
  | [], d => [(d, 1)]
  | (k, v) :: rest, d =>
    if k = d then (k, v + 1) :: rest else (k, v) :: bumpDomain rest d

/-- Embedding of `AgenticAPI.getAgentStatistics` (agentic-api.ts lines
182-218).  Note the average: the numerator sums `result.duration || 0` over
ALL task results while the denominator is the number of successful ones. -/
def getAgentStatistics (agents : List Agent) (taskResults : List TaskResult) :
    AgentStatistics :=
  let total := agents.length
  let available := (agents.filter (fun a => a.status == AgentStatus.idle)).length
  let busy := (agents.filter (fun a => a.status == AgentStatus.busy)).length
  let offline := (agents.filter (fun a => a.status == AgentStatus.offline)).length
  let byDomain := agents.foldl (fun acc agent => bumpDomain acc agent.domain) []
  let completedTasks := (taskResults.filter (fun r => r.success)).length
  let avgDuration : Rat :=
    if 0 < completedTasks then
      (taskResults.foldl (fun sum r => sum + r.duration.getD 0) 0)
        / (completedTasks : Rat)
    else 0
  { totalAgents := total, availableAgents := available, busyAgents := busy,
    offlineAgents := offline, byDomain := byDomain,
    tasksCompleted := completedTasks, averageTaskDuration := avgDuration }

/-- The averaging rule asserted by the claim, following the spec's words:
the arithmetic mean of the durations of the terminal successful records
only, and 0 when there are none.  Stated for comparison with the source's
`getAgentStatistics`. -/
def specMeanSuccessfulDuration (taskResults : List TaskResult) : Rat :=
  let successful := taskResults.filter (fun r => r.success)
  if 0 < successful.length then
    (successful.foldl (fun sum r => sum + r.duration.getD 0) 0)
      / (successful.length : Rat)
  else 0

/-- Two task records: one successful of duration 10 and one failed of
duration 20. -/
def c7Results : List TaskResult :=
  [ { success := true, agentId := none, startTime := none, endTime := none,
      duration := some 10, output := none, error := none },
    { success := false, agentId := none, startTime := none, endTime := none,
      duration := some 20, output := none, error := none } ]

/-- Claim C7 counterexample: with one successful record of duration 10 and
one failed record of duration 20, the source reports an average of 30 — the
failed record's duration enters the numerator while only successful records
are counted in the denominator — instead of the claimed mean 10 over the
successful records only. -/
theorem C7_counterexample :
    (getAgentStatistics [] c7Results).averageTaskDuration = 30 ∧
    specMeanSuccessfulDuration c7Results = 10 ∧
    (getAgentStatistics [] c7Results).averageTaskDuration
      ≠ specMeanSuccessfulDuration c7Results := by
  refine ⟨?_, ?_, ?_⟩ <;> norm_num [getAgentStatistics, specMeanSuccessfulDuration, c7Results]

/-- Folding durations from any start value adds the mapped sum. -/
theorem foldl_duration_sum (l : List TaskResult) (init : Rat) :
    l.foldl (fun sum r => sum + r.duration.getD 0) init
      = init + (l.map (fun r => r.duration.getD 0)).sum := by
  induction l generalizing init with
  | nil => simp
  | cons r rest ih => simp [List.foldl, ih]; ring

/-- Claim C7 (amended): `averageTaskDuration` divides the sum of ALL task
records' durations (absent durations counted as 0) by the number of
successful records, and is 0 when no record is successful. -/
theorem C7_amended (agents : List Agent) (taskResults : List TaskResult) :
    (getAgentStatistics agents taskResults).averageTaskDuration
      = if (taskResults.filter (fun r => r.success)).length = 0 then 0
        else (taskResults.map (fun r => r.duration.getD 0)).sum
              / ((taskResults.filter (fun r => r.success)).length : Rat) := by
  unfold getAgentStatistics
  by_cases h : (taskResults.filter (fun r => r.success)).length = 0
  · simp [h]
  · simp [h, Nat.pos_of_ne_zero h, foldl_duration_sum]

/-- Result shape of `getSwarmHealth` (agentic-api.ts lines 223-230). -/
structure SwarmHealth where
  healthy : Bool
  activeAgents : Nat
  totalCapacity : Nat
  currentLoad : Nat
  loadPercentage : Rat
  recommendedActions : List String
deriving DecidableEq, Repr

/-- Agents counted as active by `getSwarmHealth` (agentic-api.ts line 232):
status idle or busy. -/
def swarmActiveAgents (agents : List Agent) : Nat :=
  (agents.filter
    (fun a => a.status == AgentStatus.idle || a.status == AgentStatus.busy)).length

/-- Busy agents, the current load (agentic-api.ts line 234). -/
def swarmCurrentLoad (agents : List Agent) : Nat :=
  (agents.filter (fun a => a.status == AgentStatus.busy)).length

/-- The raw load percentage (agentic-api.ts line 235):
`totalCapacity > 0 ? (currentLoad / totalCapacity) * 100 : 0`. -/
def loadPercentageRaw (agents : List Agent) : Rat :=
  if 0 < agents.length then
    ((swarmCurrentLoad agents : Rat) / (agents.length : Rat)) * 100
  else 0

/-- The health flag (agentic-api.ts line 237):
`loadPercentage < 80 && activeAgents > 0`. -/
def swarmHealthy (agents : List Agent) : Bool :=
  decide (loadPercentageRaw agents < 80) && decide (0 < swarmActiveAgents agents)

/-- Advisory emitted when `loadPercentage > 90` (agentic-api.ts line 242). -/
def nearCapacityMsg : String :=
  "Agent swarm near capacity - consider adding more agents"

/-- Advisory emitted when `activeAgents < totalCapacity * 0.5`
(agentic-api.ts line 246). -/
def lowUtilizationMsg : String :=
  "Low agent utilization - consider reducing agent pool"

/-- Advisory emitted when `!healthy` (agentic-api.ts line 250). -/
def unhealthyMsg : String :=
  "Agent swarm unhealthy - investigate agent failures"

/-- The advisory list of `getSwarmHealth` (agentic-api.ts lines 239-251), in
push order. -/
def swarmRecommendedActions (agents : List Agent) : List String :=
  (if 90 < loadPercentageRaw agents then [nearCapacityMsg] else []) ++
  (if (swarmActiveAgents agents : Rat) < (agents.length : Rat) * (1 / 2) then
    [lowUtilizationMsg]
  else []) ++
  (if swarmHealthy agents = false then [unhealthyMsg] else [])

/-- JavaScript `Math.round(x * 100) / 100` on exact rationals
(`round` rounds half upward, matching `Math.round`). -/
def jsRound2 (x : Rat) : Rat := ((round (x * 100) : Int) : Rat) / 100

/-- Embedding of `AgenticAPI.getSwarmHealth` (agentic-api.ts lines 223-261). -/
def getSwarmHealth (agents : List Agent) : SwarmHealth :=
  { healthy := swarmHealthy agents
    activeAgents := swarmActiveAgents agents
    totalCapacity := agents.length
    currentLoad := swarmCurrentLoad agents
    loadPercentage := jsRound2 (loadPercentageRaw agents)
    recommendedActions := swarmRecommendedActions agents }

/-- Ten agents of one domain, nine busy and one idle: totalCapacity 10 and
currentLoad 9. -/
def c6Agents : List Agent :=
  List.replicate 9
    { id := "b", name := "b", domain := "d", capabilities := [],
      status := AgentStatus.busy, priority := 1 } ++
  [{ id := "i", name := "i", domain := "d", capabilities := [],
      status := AgentStatus.idle, priority := 1 }]

/-- The load percentage of the nine-of-ten-busy swarm is exactly 90. -/
theorem c6_loadPercentageRaw : loadPercentageRaw c6Agents = 90 := by
  have hload : swarmCurrentLoad c6Agents = 9 := rfl
  have htot : c6Agents.length = 10 := rfl
  rw [loadPercentageRaw, htot, hload]
  norm_num

/-- The nine-of-ten-busy swarm is reported unhealthy. -/
theorem c6_unhealthy : swarmHealthy c6Agents = false := by
  rw [swarmHealthy, c6_loadPercentageRaw]
  norm_num

/-- Claim C6 counterexample: with totalCapacity 10 and currentLoad 9 the
source reports loadPercentage 90 and healthy false, but the near-capacity
advisory is NOT among the recommended actions, because the source emits it
only when the load percentage strictly exceeds 90. -/
theorem C6_counterexample :
    (getSwarmHealth c6Agents).loadPercentage = 90 ∧
    (getSwarmHealth c6Agents).healthy = false ∧
    nearCapacityMsg ∉ (getSwarmHealth c6Agents).recommendedActions := by
  refine ⟨?_, c6_unhealthy, ?_⟩
  · show jsRound2 (loadPercentageRaw c6Agents) = 90
    rw [c6_loadPercentageRaw, jsRound2]
    norm_num [round_eq]
  · show nearCapacityMsg ∉ swarmRecommendedActions c6Agents
    have hact : swarmActiveAgents c6Agents = 10 := rfl
    have htot : c6Agents.length = 10 := rfl
    rw [swarmRecommendedActions, c6_loadPercentageRaw, hact, htot, c6_unhealthy]
    norm_num
    decide

/-- Claim C6 (amended): totalCapacity 10 with currentLoad 9 yields
loadPercentage 90 and healthy false, and the near-capacity advisory is
emitted exactly when the raw load percentage strictly exceeds 90 — so it is
absent at exactly 90. -/
theorem C6_amended :
    (getSwarmHealth c6Agents).loadPercentage = 90 ∧
    (getSwarmHealth c6Agents).healthy = false ∧
    ∀ agents : List Agent,
      (nearCapacityMsg ∈ (getSwarmHealth agents).recommendedActions ↔
        90 < loadPercentageRaw agents) := by
  refine ⟨?_, c6_unhealthy, ?_⟩
  · show jsRound2 (loadPercentageRaw c6Agents) = 90
    rw [c6_loadPercentageRaw, jsRound2]
    norm_num [round_eq]
  · intro agents
    show nearCapacityMsg ∈ swarmRecommendedActions agents ↔ _
    have h1 : nearCapacityMsg ≠ lowUtilizationMsg := by decide
    have h2 : nearCapacityMsg ≠ unhealthyMsg := by decide
    rw [swarmRecommendedActions]
    by_cases hc : (90 : Rat) < loadPercentageRaw agents
    · simp [hc]
    · simp only [hc, if_false, iff_false, List.nil_append, List.mem_append]
      split_ifs <;> simp_all
